import Mathlib

set_option maxHeartbeats 1000000

/-!
Shallow embedding of the CF (CFS CFDP) receive-side engine.

The repository provides the public headers of the receive state machine
(src/fsw/src/cf_cfdp_r.h), the configuration table layout
(src/fsw/inc/cf_tbldefs.h) and the unit tests of the timer component
(src/unit-test/cf_timer_tests.c).  The C bodies of the functions are not
part of the tree, so each operation below is modelled from the
specification and from the doc comments in the headers, as its own doc
comment states.  Machine integers are Nat with explicit reduction
modulo 2 ^ 32 where the C code computes in uint32.
-/

/-- Modulus of unsigned 32-bit arithmetic, as used by the uint32 fields of the C code. -/
def U32MOD : Nat := 2 ^ 32

/-- Configuration table, from src/fsw/inc/cf_tbldefs.h (CF_ConfigTable_t and
CF_ChannelConfig_t).  Only the fields the receive engine reads are kept; the
per-channel fields are flattened into this record since the model follows one
channel.  nak_max_segments stands for the compile-time NAK segment capacity the
spec calls the configured NAK capacity. -/
structure CF_ConfigTable_t where
  ticks_per_second : Nat
  rx_crc_calc_bytes_per_wakeup : Nat
  ack_timer_s : Nat
  nak_timer_s : Nat
  inactivity_timer_s : Nat
  ack_limit : Nat
  nak_limit : Nat
  nak_max_segments : Nat
deriving DecidableEq

/-- Timer state: a non-negative tick count, stored in a uint32 in the C code. -/
structure CF_Timer_t where
  tick : Nat
deriving DecidableEq

/-- Modelled from the spec: CF_Timer_Sec2Ticks.  The body is not in the tree
(only its unit test is); per the test Test_CF_Timer_Sec2Ticks_ReturnExpectedValue
and the spec, it multiplies seconds by the configured ticks_per_second with both
operands and the result in unsigned 32-bit arithmetic. -/
def CF_Timer_Sec2Ticks (cfg : CF_ConfigTable_t) (sec : Nat) : Nat :=
  ((sec % U32MOD) * (cfg.ticks_per_second % U32MOD)) % U32MOD

/-- Modelled from the spec: CF_Timer_InitRelSec sets tick to seconds times
ticks_per_second, discarding the prior tick value, as the unit test
Test_CF_Timer_InitRelSec_ReceiveExpectedValue also checks. -/
def CF_Timer_InitRelSec (cfg : CF_ConfigTable_t) (_t : CF_Timer_t) (sec : Nat) : CF_Timer_t :=
  { tick := CF_Timer_Sec2Ticks cfg sec }

/-- Modelled from the spec: CF_Timer_Expired returns whether tick equals zero. -/
def CF_Timer_Expired (t : CF_Timer_t) : Bool :=
  t.tick == 0

/-- Modelled from the spec: CF_Timer_Tick decrements tick unless it is already
zero, so it saturates at zero. -/
def CF_Timer_Tick (t : CF_Timer_t) : CF_Timer_t :=
  if t.tick = 0 then t else { tick := t.tick - 1 }

/-- Chunk list: ordered non-overlapping half-open byte ranges of received data.
Intervals are pairs (start, end) with start < end, sorted by start. -/
abbrev CF_ChunkList_t := List (Nat × Nat)

/-- Modelled from the spec: chunk-list insert with merge of overlapping or
touching intervals.  The capacity-eviction policy of a full list is not
modelled; no claim exercises a full list. -/
def CF_ChunkList_Add (c : Nat × Nat) : CF_ChunkList_t → CF_ChunkList_t
  | [] => [c]
  | (s, e) :: rest =>
    if c.2 < s then c :: (s, e) :: rest
    else if e < c.1 then (s, e) :: CF_ChunkList_Add c rest
    else CF_ChunkList_Add (min s c.1, max e c.2) rest

/-- Modelled from the spec: insert of a received range; a zero-length range is
ignored. -/
def CF_ChunkList_Insert (cl : CF_ChunkList_t) (c : Nat × Nat) : CF_ChunkList_t :=
  if c.1 = c.2 then cl else CF_ChunkList_Add c cl

/-- Modelled from the spec: IsContiguous is true iff a single interval starting
at zero covers the whole of the range up to limit. -/
def CF_ChunkList_IsContiguous (cl : CF_ChunkList_t) (limit : Nat) : Bool :=
  if limit = 0 then true
  else
    match cl with
    | [] => false
    | (s, e) :: _ => s == 0 && decide (limit ≤ e)

/-- Modelled from the spec: gap enumeration worker.  Walks the sorted chunk
list from position pos and returns the complement intervals below limit in
ascending order. -/
def computeGapsFrom (limit : Nat) : Nat → CF_ChunkList_t → List (Nat × Nat)
  | pos, [] => if pos < limit then [(pos, limit)] else []
  | pos, (s, e) :: rest =>
    if limit ≤ pos then []
    else if pos < s then
      if limit ≤ s then [(pos, limit)]
      else (pos, s) :: computeGapsFrom limit e rest
    else computeGapsFrom limit (max pos e) rest

/-- Modelled from the spec: ComputeGaps enumerates the missing intervals within
the range from zero to limit, in ascending order. -/
def CF_ChunkList_ComputeGaps (cl : CF_ChunkList_t) (limit : Nat) : List (Nat × Nat) :=
  computeGapsFrom limit 0 cl

/-- Logical view of a NAK PDU (spec section 4.4): scope bounds and the list of
(start, end) segment requests. -/
structure CF_Logical_PduNak_t where
  start_of_scope : Nat
  end_of_scope : Nat
  segments : List (Nat × Nat)
deriving DecidableEq

/-- Logical view of a File Data PDU (spec section 4.4): offset and payload
bytes. -/
structure CF_Logical_PduFileData_t where
  offset : Nat
  data : List Nat
deriving DecidableEq

/-- Receive-side transaction flags, from the spec data model. -/
structure CF_RxFlags_t where
  md_received : Bool
  eof_received : Bool
  send_ack : Bool
  send_nak : Bool
  send_fin : Bool
  nak_sent_at_least_once : Bool
  inactivity_fired : Bool
  crc_calc_done : Bool
  canceled : Bool
deriving DecidableEq

/-- All-clear flag set, the state after a transaction reset. -/
def emptyRxFlags : CF_RxFlags_t :=
  { md_received := false, eof_received := false, send_ack := false,
    send_nak := false, send_fin := false, nak_sent_at_least_once := false,
    inactivity_fired := false, crc_calc_done := false, canceled := false }

/-- Incremental CRC accumulator with a cursor into the file for the background
CRC pass; pending records that the pass has been scheduled by the completion
check and has not finished. -/
structure CF_CrcState_t where
  accum : Nat
  cursor : Nat
  pending : Bool
deriving DecidableEq

/-- Terminal CFDP condition codes used by the receive engine (spec sections 3
and 7). -/
inductive CF_TxnStatus_t where
  | NoError
  | FileSizeError
  | FilestoreRejection
  | CheckLimitReached
  | InactivityDetected
  | CancelRequestReceived
  | FileChecksumFailure
deriving DecidableEq

/-- Receive substates of a transaction (spec section 3 data model). -/
inductive CF_RxSubState where
  | AwaitingMetadata
  | ReceivingFileData
  | AwaitingEof
  | AwaitingGapFill
  | SendingFin
  | AwaitingFinAck
  | Finished
deriving DecidableEq

/-- Receive transaction state, from the spec data model.  The file sink content
is carried as the list of bytes written so far; expected_file_size is the size
known from EOF (provisionally from metadata). -/
structure CF_Transaction_t where
  substate : CF_RxSubState
  expected_file_size : Nat
  received_ranges : CF_ChunkList_t
  file : List Nat
  crc_state : CF_CrcState_t
  flags : CF_RxFlags_t
  ack_timer : CF_Timer_t
  nak_timer : CF_Timer_t
  inactivity_timer : CF_Timer_t
  ack_retries_left : Nat
  nak_retries_left : Nat
  eof_crc : Nat
  status_code : CF_TxnStatus_t
deriving DecidableEq

/-- Modelled from the spec: the CRC engine DigestBytes step, folded byte by
byte into the accumulator modulo 2 ^ 32.  The particular digest function is out
of the scope of the spec; the claims depend only on it being a deterministic
fold over the streamed bytes. -/
def CF_CRC_DigestBytes (accum : Nat) (bytes : List Nat) : Nat :=
  bytes.foldl (fun a b => (a + b) % U32MOD) accum

/-- Modelled from the spec: positional read from the file sink, returning len
bytes starting at offset. -/
def FileSink_ReadAt (file : List Nat) (off len : Nat) : List Nat :=
  (file.drop off).take len

/-- Modelled from the spec: positional write to the file sink at the given
offset, zero-padding if the write starts past the current end. -/
def FileSink_WriteAt (file : List Nat) (off : Nat) (data : List Nat) : List Nat :=
  file.take off ++ List.replicate (off - file.length) 0 ++ data ++ file.drop (off + data.length)

/-- Modelled from the spec: CF_CFDP_R2_SetFinTxnStatus stores the transaction
status code and sets the send_fin flag, per its doc comment in
src/fsw/src/cf_cfdp_r.h. -/
def CF_CFDP_R2_SetFinTxnStatus (txn : CF_Transaction_t) (stat : CF_TxnStatus_t) : CF_Transaction_t :=
  { txn with status_code := stat, flags := { txn.flags with send_fin := true } }

/-- Modelled from the spec: CF_CFDP_R_Cancel.  Per spec section 5, a cancel
request synchronously sets the canceled flag, stores the status code Cancel
Request Received with send_fin (via CF_CFDP_R2_SetFinTxnStatus), and moves the
transaction to SendingFin so the normal FIN handshake retires it. -/
def CF_CFDP_R_Cancel (txn : CF_Transaction_t) : CF_Transaction_t :=
  let t1 := { txn with flags := { txn.flags with canceled := true } }
  let t2 := CF_CFDP_R2_SetFinTxnStatus t1 CF_TxnStatus_t.CancelRequestReceived
  { t2 with substate := CF_RxSubState.SendingFin }

/-- Modelled from the spec: CF_CFDP_R1_Reset returns the transaction state to
the system; the transaction thereby reaches Finished with cleared flags and
ranges. -/
def CF_CFDP_R1_Reset (txn : CF_Transaction_t) : CF_Transaction_t :=
  { txn with
    substate := CF_RxSubState.Finished,
    flags := emptyRxFlags,
    received_ranges := [],
    crc_state := { accum := 0, cursor := 0, pending := false } }

/-- Modelled from the spec: CF_CFDP_R2_Reset handles R2 reset logic then calls
the R1 reset logic, per its doc comment in src/fsw/src/cf_cfdp_r.h. -/
def CF_CFDP_R2_Reset (txn : CF_Transaction_t) : CF_Transaction_t :=
  CF_CFDP_R1_Reset txn

/-- Modelled from the spec: CF_CFDP_R2_Recv_fin_ack is the end of an R2
transaction and simply resets the transaction state, per its doc comment in
src/fsw/src/cf_cfdp_r.h. -/
def CF_CFDP_R2_Recv_fin_ack (txn : CF_Transaction_t) : CF_Transaction_t :=
  CF_CFDP_R2_Reset txn

/-- Modelled from the spec: the completion check CF_CFDP_R2_Complete.  Per its
doc comment in src/fsw/src/cf_cfdp_r.h a transaction is complete when metadata
was received, EOF was received and there are no gaps; the EOF flag itself is
not consulted because the function is only called after EOF is received.  When
complete it schedules the background CRC pass (spec: schedule CRC
finalization) and moves to AwaitingGapFill where the tick driver runs the
pass; otherwise, when allowed, it requests a NAK. -/
def CF_CFDP_R2_Complete (txn : CF_Transaction_t) (ok_to_send_nak : Bool) : CF_Transaction_t :=
  if txn.flags.md_received && CF_ChunkList_IsContiguous txn.received_ranges txn.expected_file_size then
    { txn with
      substate := CF_RxSubState.AwaitingGapFill,
      crc_state := { txn.crc_state with pending := true } }
  else if ok_to_send_nak then
    { txn with flags := { txn.flags with send_nak := true } }
  else
    txn

/-- Spec-side completion predicate, verbatim from the spec sentence: a
transaction is complete iff md_received and eof_received hold and
received_ranges covers the whole interval from zero to file_size. -/
def R2_TxnIsComplete (txn : CF_Transaction_t) : Bool :=
  txn.flags.md_received && txn.flags.eof_received &&
    CF_ChunkList_IsContiguous txn.received_ranges txn.expected_file_size

/-- Modelled from the spec: CF_CFDP_R_ProcessFd writes the file data at its
offset into the file sink and records the received range in the chunk list.
The file-write failure path is an external filesystem error and is outside the
model; this is the accepted-PDU path. -/
def CF_CFDP_R_ProcessFd (txn : CF_Transaction_t) (fd : CF_Logical_PduFileData_t) : CF_Transaction_t :=
  { txn with
    file := FileSink_WriteAt txn.file fd.offset fd.data,
    received_ranges := CF_ChunkList_Insert txn.received_ranges (fd.offset, fd.offset + fd.data.length) }

/-- Modelled from the spec: re-arm the ACK timer from the configured ack
timeout. -/
def CF_CFDP_ArmAckTimer (cfg : CF_ConfigTable_t) (txn : CF_Transaction_t) : CF_Transaction_t :=
  { txn with ack_timer := CF_Timer_InitRelSec cfg txn.ack_timer cfg.ack_timer_s }

/-- Modelled from the spec: CF_CFDP_R2_SubstateRecvFileData.  Per its doc
comment in src/fsw/src/cf_cfdp_r.h it inserts the received range, re-checks
completion once a NAK has ever been sent, re-arms the ACK timer, and per the
spec (NAK fairness) every accepted File Data PDU resets nak_retries_left to
the configured nak_limit. -/
def CF_CFDP_R2_SubstateRecvFileData (cfg : CF_ConfigTable_t) (txn : CF_Transaction_t)
    (fd : CF_Logical_PduFileData_t) : CF_Transaction_t :=
  let t1 := CF_CFDP_R_ProcessFd txn fd
  let t2 := if t1.flags.nak_sent_at_least_once then CF_CFDP_R2_Complete t1 true else t1
  let t3 := if t2.flags.canceled then t2 else CF_CFDP_ArmAckTimer cfg t2
  { t3 with nak_retries_left := cfg.nak_limit }

/-- Modelled from the spec: CF_CFDP_R2_GapCompute loads a single NAK segment
request from one gap, appending it to the NAK being assembled. -/
def CF_CFDP_R2_GapCompute (chunk : Nat × Nat) (nak : CF_Logical_PduNak_t) : CF_Logical_PduNak_t :=
  { nak with segments := nak.segments ++ [chunk] }

/-- Highest byte offset covered by any received range. -/
def highestReceivedOffset (cl : CF_ChunkList_t) : Nat :=
  cl.foldl (fun m c => max m c.2) 0

/-- Modelled from the spec: CF_CFDP_R_SubstateSendNak.  When metadata has not
been received the emitted NAK carries the single segment request (0, 0)
requesting metadata retransmission; otherwise the gaps below the minimum of
the EOF size and the highest received offset are packed, up to the configured
NAK capacity, with scope from zero to the EOF size.  Sending re-arms the NAK
timer, decrements nak_retries_left and records that a NAK was sent. -/
def CF_CFDP_R_SubstateSendNak (cfg : CF_ConfigTable_t) (txn : CF_Transaction_t) :
    CF_Logical_PduNak_t × CF_Transaction_t :=
  let txn1 := { txn with
    nak_timer := CF_Timer_InitRelSec cfg txn.nak_timer cfg.nak_timer_s,
    nak_retries_left := txn.nak_retries_left - 1,
    flags := { txn.flags with nak_sent_at_least_once := true, send_nak := false } }
  if txn.flags.md_received = false then
    ({ start_of_scope := 0, end_of_scope := 0, segments := [(0, 0)] }, txn1)
  else
    let limit := min txn.expected_file_size (highestReceivedOffset txn.received_ranges)
    let gaps := (CF_ChunkList_ComputeGaps txn.received_ranges limit).take cfg.nak_max_segments
    (gaps.foldl (fun nak g => CF_CFDP_R2_GapCompute g nak)
      { start_of_scope := 0, end_of_scope := txn.expected_file_size, segments := [] }, txn1)

/-- Modelled from the spec: CF_CFDP_R2_CalcCrcChunk.  One invocation digests at
most rx_crc_calc_bytes_per_wakeup further bytes of the file into the CRC
accumulator.  When the cursor reaches the end of the file the computed CRC is
compared with the CRC from EOF: on mismatch the File Checksum Failure
condition code is stored via CF_CFDP_R2_SetFinTxnStatus, on match the status
is left as is; either way send_fin is raised and the transaction transitions
to SendingFin.  The Bool result is true exactly when the pass finished. -/
def CF_CFDP_R2_CalcCrcChunk (cfg : CF_ConfigTable_t) (txn : CF_Transaction_t) :
    CF_Transaction_t × Bool :=
  let count := min cfg.rx_crc_calc_bytes_per_wakeup (txn.expected_file_size - txn.crc_state.cursor)
  let accum := CF_CRC_DigestBytes txn.crc_state.accum (FileSink_ReadAt txn.file txn.crc_state.cursor count)
  let cursor := txn.crc_state.cursor + count
  if txn.expected_file_size ≤ cursor then
    let base := { txn with
      crc_state := { accum := accum, cursor := cursor, pending := false },
      substate := CF_RxSubState.SendingFin }
    let base2 := { base with flags := { base.flags with crc_calc_done := true } }
    if accum = txn.eof_crc then
      ({ base2 with flags := { base2.flags with send_fin := true } }, true)
    else
      (CF_CFDP_R2_SetFinTxnStatus base2 CF_TxnStatus_t.FileChecksumFailure, true)
  else
    ({ txn with crc_state := { accum := accum, cursor := cursor, pending := txn.crc_state.pending } }, false)

/-- Modelled from the spec: the initialization-time validation of the
configuration table, whose body is not in the tree.  Per spec section 6 and
the field doc comment in src/fsw/inc/cf_tbldefs.h,
rx_crc_calc_bytes_per_wakeup must be a positive multiple of 1024 or init
fails. -/
def CF_ValidateConfigTable (cfg : CF_ConfigTable_t) : Bool :=
  decide (cfg.rx_crc_calc_bytes_per_wakeup ≠ 0) &&
    decide (cfg.rx_crc_calc_bytes_per_wakeup % 1024 = 0)

/-- Concrete configuration used by the witness theorems, with the literal
values of the end-to-end scenarios in spec section 8. -/
def cfg0 : CF_ConfigTable_t :=
  { ticks_per_second := 10, rx_crc_calc_bytes_per_wakeup := 1024,
    ack_timer_s := 5, nak_timer_s := 5, inactivity_timer_s := 30,
    ack_limit := 3, nak_limit := 3, nak_max_segments := 58 }

/-- Baseline concrete transaction used to build witness inputs. -/
def txn0 : CF_Transaction_t :=
  { substate := CF_RxSubState.ReceivingFileData,
    expected_file_size := 4,
    received_ranges := [],
    file := [],
    crc_state := { accum := 0, cursor := 0, pending := false },
    flags := emptyRxFlags,
    ack_timer := { tick := 0 },
    nak_timer := { tick := 0 },
    inactivity_timer := { tick := 0 },
    ack_retries_left := 0,
    nak_retries_left := 0,
    eof_crc := 0,
    status_code := CF_TxnStatus_t.NoError }

/-- Witness input for the completion-check claim: metadata and EOF received,
the whole interval from 0 to 4 covered. -/
def txnC1 : CF_Transaction_t :=
  { txn0 with
    received_ranges := [(0, 4)],
    flags := { emptyRxFlags with md_received := true, eof_received := true } }

/-- Witness input for the NAK claim: send_nak pending and metadata missing. -/
def txnC2 : CF_Transaction_t :=
  { txn0 with
    received_ranges := [(0, 2)],
    flags := { emptyRxFlags with send_nak := true } }

/-- Witness input for the CRC-pass claim: completion established, pass
scheduled at cursor 0 over the two-byte file with matching EOF CRC. -/
def txnC4 : CF_Transaction_t :=
  { txn0 with
    substate := CF_RxSubState.AwaitingGapFill,
    expected_file_size := 2,
    file := [1, 2],
    received_ranges := [(0, 2)],
    crc_state := { accum := 0, cursor := 0, pending := true },
    flags := { emptyRxFlags with md_received := true, eof_received := true },
    eof_crc := 3 }

/-- Witness input for the FIN-ACK claim: transaction awaiting FIN-ACK. -/
def txnC5 : CF_Transaction_t :=
  { txn0 with substate := CF_RxSubState.AwaitingFinAck }

/-- Witness input for the cancel claim: an active transaction. -/
def txnC6 : CF_Transaction_t :=
  { txn0 with substate := CF_RxSubState.ReceivingFileData }

/-- C1: for an R2 receive transaction in the documented call context of
CF_CFDP_R2_Complete (EOF already received, CRC pass not yet scheduled), the
completion check establishes completion (schedules the CRC pass toward
SendingFin) exactly when metadata was received, EOF was received and the
received ranges cover the whole interval from 0 to file_size; and the check
itself never moves the transaction to SendingFin directly. -/
theorem CF_CFDP_R2_Complete_completion_iff (txn : CF_Transaction_t) (ok : Bool)
    (heof : txn.flags.eof_received = true)
    (hpend : txn.crc_state.pending = false)
    (hsub : txn.substate ≠ CF_RxSubState.SendingFin) :
    ((CF_CFDP_R2_Complete txn ok).crc_state.pending = true ↔
      (txn.flags.md_received = true ∧ txn.flags.eof_received = true ∧
        CF_ChunkList_IsContiguous txn.received_ranges txn.expected_file_size = true)) ∧
    (CF_CFDP_R2_Complete txn ok).substate ≠ CF_RxSubState.SendingFin := by
  unfold CF_CFDP_R2_Complete
  split_ifs with h1 h2 <;> simp_all [Bool.and_eq_true]

/-- C1 witness: a concrete complete transaction. -/
theorem CF_CFDP_R2_Complete_completion_iff_witness :
    (txnC1.flags.eof_received = true ∧ txnC1.crc_state.pending = false ∧
      txnC1.substate ≠ CF_RxSubState.SendingFin) ∧
    (((CF_CFDP_R2_Complete txnC1 true).crc_state.pending = true ↔
      (txnC1.flags.md_received = true ∧ txnC1.flags.eof_received = true ∧
        CF_ChunkList_IsContiguous txnC1.received_ranges txnC1.expected_file_size = true)) ∧
    (CF_CFDP_R2_Complete txnC1 true).substate ≠ CF_RxSubState.SendingFin) :=
  ⟨⟨by decide, by decide, by decide⟩,
    CF_CFDP_R2_Complete_completion_iff txnC1 true (by decide) (by decide) (by decide)⟩

/-- C2: when send_nak is pending and metadata has not been received, the NAK
emitted by CF_CFDP_R_SubstateSendNak carries exactly one segment request,
namely (0, 0), requesting metadata retransmission. -/
theorem CF_CFDP_R_SubstateSendNak_md_missing (cfg : CF_ConfigTable_t) (txn : CF_Transaction_t)
    (hnak : txn.flags.send_nak = true) (hmd : txn.flags.md_received = false) :
    (CF_CFDP_R_SubstateSendNak cfg txn).1.segments = [(0, 0)] := by
  unfold CF_CFDP_R_SubstateSendNak
  simp [hmd]

/-- C2 witness: a concrete transaction with send_nak set and no metadata. -/
theorem CF_CFDP_R_SubstateSendNak_md_missing_witness :
    txnC2.flags.send_nak = true ∧ txnC2.flags.md_received = false ∧
    (CF_CFDP_R_SubstateSendNak cfg0 txnC2).1.segments = [(0, 0)] :=
  ⟨by decide, by decide,
    CF_CFDP_R_SubstateSendNak_md_missing cfg0 txnC2 (by decide) (by decide)⟩

/-- C3: every accepted File Data PDU processed by
CF_CFDP_R2_SubstateRecvFileData resets nak_retries_left to the configured
nak_limit, for every transaction state (any substate, any prior counter
value). -/
theorem CF_CFDP_R2_SubstateRecvFileData_resets_nak_retries
    (cfg : CF_ConfigTable_t) (txn : CF_Transaction_t) (fd : CF_Logical_PduFileData_t) :
    (CF_CFDP_R2_SubstateRecvFileData cfg txn fd).nak_retries_left = cfg.nak_limit :=
  rfl

/-- C4: one invocation of CF_CFDP_R2_CalcCrcChunk advances the CRC cursor by
at most rx_crc_calc_bytes_per_wakeup bytes; it reports completion exactly when
the cursor reaches the end of the file; on completion the File Checksum
Failure condition code is set exactly when the computed CRC differs from the
EOF CRC and the transaction transitions to SendingFin; before completion the
transaction stays out of SendingFin. -/
theorem CF_CFDP_R2_CalcCrcChunk_props (cfg : CF_ConfigTable_t) (txn : CF_Transaction_t)
    (hcur : txn.crc_state.cursor ≤ txn.expected_file_size)
    (hstat : txn.status_code = CF_TxnStatus_t.NoError)
    (hsub : txn.substate = CF_RxSubState.AwaitingGapFill) :
    (CF_CFDP_R2_CalcCrcChunk cfg txn).1.crc_state.cursor - txn.crc_state.cursor ≤
        cfg.rx_crc_calc_bytes_per_wakeup ∧
    ((CF_CFDP_R2_CalcCrcChunk cfg txn).2 = true ↔
        (CF_CFDP_R2_CalcCrcChunk cfg txn).1.crc_state.cursor = txn.expected_file_size) ∧
    ((CF_CFDP_R2_CalcCrcChunk cfg txn).2 = true →
        (((CF_CFDP_R2_CalcCrcChunk cfg txn).1.status_code = CF_TxnStatus_t.FileChecksumFailure ↔
            (CF_CFDP_R2_CalcCrcChunk cfg txn).1.crc_state.accum ≠ txn.eof_crc) ∧
          (CF_CFDP_R2_CalcCrcChunk cfg txn).1.substate = CF_RxSubState.SendingFin)) ∧
    ((CF_CFDP_R2_CalcCrcChunk cfg txn).2 = false →
        (CF_CFDP_R2_CalcCrcChunk cfg txn).1.substate = CF_RxSubState.AwaitingGapFill) := by
  unfold CF_CFDP_R2_CalcCrcChunk
  dsimp only
  split_ifs with hfin heq <;>
    simp_all [CF_CFDP_R2_SetFinTxnStatus] <;> omega

/-- C4 witness: a concrete scheduled CRC pass over a two-byte file that
finishes in one invocation with a matching EOF CRC. -/
theorem CF_CFDP_R2_CalcCrcChunk_props_witness :
    (txnC4.crc_state.cursor ≤ txnC4.expected_file_size ∧
      txnC4.status_code = CF_TxnStatus_t.NoError ∧
      txnC4.substate = CF_RxSubState.AwaitingGapFill) ∧
    ((CF_CFDP_R2_CalcCrcChunk cfg0 txnC4).1.crc_state.cursor - txnC4.crc_state.cursor ≤
        cfg0.rx_crc_calc_bytes_per_wakeup ∧
    ((CF_CFDP_R2_CalcCrcChunk cfg0 txnC4).2 = true ↔
        (CF_CFDP_R2_CalcCrcChunk cfg0 txnC4).1.crc_state.cursor = txnC4.expected_file_size) ∧
    ((CF_CFDP_R2_CalcCrcChunk cfg0 txnC4).2 = true →
        (((CF_CFDP_R2_CalcCrcChunk cfg0 txnC4).1.status_code = CF_TxnStatus_t.FileChecksumFailure ↔
            (CF_CFDP_R2_CalcCrcChunk cfg0 txnC4).1.crc_state.accum ≠ txnC4.eof_crc) ∧
          (CF_CFDP_R2_CalcCrcChunk cfg0 txnC4).1.substate = CF_RxSubState.SendingFin)) ∧
    ((CF_CFDP_R2_CalcCrcChunk cfg0 txnC4).2 = false →
        (CF_CFDP_R2_CalcCrcChunk cfg0 txnC4).1.substate = CF_RxSubState.AwaitingGapFill)) :=
  ⟨⟨by decide, by decide, by decide⟩,
    CF_CFDP_R2_CalcCrcChunk_props cfg0 txnC4 (by decide) (by decide) (by decide)⟩

/-- C5: in substate AwaitingFinAck, receiving a FIN-ACK PDU resets the
transaction (CF_CFDP_R2_Recv_fin_ack performs the R2 reset) and the
transaction thereby reaches Finished. -/
theorem CF_CFDP_R2_Recv_fin_ack_resets (txn : CF_Transaction_t)
    (h : txn.substate = CF_RxSubState.AwaitingFinAck) :
    CF_CFDP_R2_Recv_fin_ack txn = CF_CFDP_R2_Reset txn ∧
    (CF_CFDP_R2_Recv_fin_ack txn).substate = CF_RxSubState.Finished :=
  ⟨rfl, rfl⟩

/-- C5 witness: a concrete transaction awaiting FIN-ACK. -/
theorem CF_CFDP_R2_Recv_fin_ack_resets_witness :
    txnC5.substate = CF_RxSubState.AwaitingFinAck ∧
    (CF_CFDP_R2_Recv_fin_ack txnC5 = CF_CFDP_R2_Reset txnC5 ∧
      (CF_CFDP_R2_Recv_fin_ack txnC5).substate = CF_RxSubState.Finished) :=
  ⟨by decide, CF_CFDP_R2_Recv_fin_ack_resets txnC5 (by decide)⟩

/-- C6: a cancel request on an active receive transaction synchronously sets
the canceled flag, stores the Cancel Request Received status code, sets
send_fin, and moves the transaction to SendingFin. -/
theorem CF_CFDP_R_Cancel_props (txn : CF_Transaction_t)
    (h : txn.substate ≠ CF_RxSubState.Finished) :
    (CF_CFDP_R_Cancel txn).flags.canceled = true ∧
    (CF_CFDP_R_Cancel txn).status_code = CF_TxnStatus_t.CancelRequestReceived ∧
    (CF_CFDP_R_Cancel txn).flags.send_fin = true ∧
    (CF_CFDP_R_Cancel txn).substate = CF_RxSubState.SendingFin :=
  ⟨rfl, rfl, rfl, rfl⟩

/-- C6 witness: a concrete active transaction. -/
theorem CF_CFDP_R_Cancel_props_witness :
    txnC6.substate ≠ CF_RxSubState.Finished ∧
    ((CF_CFDP_R_Cancel txnC6).flags.canceled = true ∧
      (CF_CFDP_R_Cancel txnC6).status_code = CF_TxnStatus_t.CancelRequestReceived ∧
      (CF_CFDP_R_Cancel txnC6).flags.send_fin = true ∧
      (CF_CFDP_R_Cancel txnC6).substate = CF_RxSubState.SendingFin) :=
  ⟨by decide, CF_CFDP_R_Cancel_props txnC6 (by decide)⟩

/-- C7: CF_Timer_Tick never increases the tick count, a tick of an already
zero timer leaves it at zero, and CF_Timer_Expired is true exactly when the
tick count is zero. -/
theorem CF_Timer_Tick_monotone_Expired_iff (t : CF_Timer_t) :
    (CF_Timer_Tick t).tick ≤ t.tick ∧
    (CF_Timer_Tick { tick := 0 }).tick = 0 ∧
    (CF_Timer_Expired t = true ↔ t.tick = 0) := by
  unfold CF_Timer_Tick CF_Timer_Expired
  refine ⟨?_, rfl, ?_⟩
  · split_ifs with h
    · omega
    · show t.tick - 1 ≤ t.tick
      omega
  · simp

/-- C8: CF_Timer_InitRelSec sets the tick count to seconds times the
configured ticks_per_second (in unsigned 32-bit arithmetic), irrespective of
the prior tick value of the timer. -/
theorem CF_Timer_InitRelSec_sets_product (cfg : CF_ConfigTable_t) (t u : CF_Timer_t) (sec : Nat) :
    (CF_Timer_InitRelSec cfg t sec).tick = (sec * cfg.ticks_per_second) % U32MOD ∧
    CF_Timer_InitRelSec cfg t sec = CF_Timer_InitRelSec cfg u sec := by
  constructor
  · show ((sec % U32MOD) * (cfg.ticks_per_second % U32MOD)) % U32MOD =
      (sec * cfg.ticks_per_second) % U32MOD
    exact (Nat.mul_mod sec cfg.ticks_per_second U32MOD).symm
  · rfl

/-- C9: the init-time validation of the configuration accepts exactly the
rx_crc_calc_bytes_per_wakeup values that are positive multiples of 1024. -/
theorem CF_ValidateConfigTable_iff (cfg : CF_ConfigTable_t) :
    CF_ValidateConfigTable cfg = true ↔
      ∃ k, 0 < k ∧ cfg.rx_crc_calc_bytes_per_wakeup = 1024 * k := by
  unfold CF_ValidateConfigTable
  simp only [Bool.and_eq_true, decide_eq_true_eq]
  constructor
  · rintro ⟨hne, hmod⟩
    exact ⟨cfg.rx_crc_calc_bytes_per_wakeup / 1024, by omega, by omega⟩
  · rintro ⟨k, hk, he⟩
    exact ⟨by omega, by omega⟩

/-- Configuration with a ticks_per_second value that makes the seconds
product wrap in 32 bits. -/
def cfgWrap : CF_ConfigTable_t :=
  { cfg0 with ticks_per_second := 2 ^ 31 }

/-- C10: the seconds-to-ticks conversion is unsigned 32-bit arithmetic: the
result is the product reduced modulo 2 ^ 32 for all inputs, and in particular
4 seconds at 2 ^ 31 ticks per second silently wraps to 0 rather than
saturating or failing. -/
theorem CF_Timer_Sec2Ticks_wraps_u32 (cfg : CF_ConfigTable_t) (sec : Nat) :
    CF_Timer_Sec2Ticks cfg sec = (sec * cfg.ticks_per_second) % (2 ^ 32) ∧
    CF_Timer_Sec2Ticks cfgWrap 4 = 0 := by
  constructor
  · show ((sec % U32MOD) * (cfg.ticks_per_second % U32MOD)) % U32MOD =
      (sec * cfg.ticks_per_second) % (2 ^ 32)
    exact (Nat.mul_mod sec cfg.ticks_per_second U32MOD).symm
  · rfl
